import Mathlib

/-!
Verification development for the SuperPublifyer reverse-proxy repository.

The embedding below translates the two source files into Lean:
* `src/server.py` — the FastAPI relay: credential/project/local-url
  validation, the `/register` endpoint with its `routes` and `tcp_proxies`
  dictionaries, and the catch-all `proxy_request` handler.
* `src/client/SuperPublifyer.py` — the PyQt client: the input patterns,
  the websocket connect/retry loop and the executor loop of
  `connect_async` that forwards received frames to the local service.

Python strings are modelled as Lean `String`/`List Char` (the repository
only ever handles ASCII route names, URLs and header names, so the ASCII
character classes below model Python's `\w`, `\d` and the literal classes
of the patterns in the source).  Python dictionaries are modelled as
association lists with first-match lookup, as the source only observes
dictionaries through membership tests, item lookup and item assignment.
-/

/-! ## Character classes of the source regexes -/

/-- Characters matched by the class in the source pattern
`[a-zA-Z0-9_-]` (server `CREDENTIAL_REGEX`/`PROJECT_REGEX` at
`src/server.py:20-21`, client `PROJECT_PATTERN` at
`src/client/SuperPublifyer.py:19`). -/
def isNameChar (c : Char) : Bool :=
  (('a' ≤ c && c ≤ 'z') || ('A' ≤ c && c ≤ 'Z') ||
   ('0' ≤ c && c ≤ '9') || c == '_' || c == '-')

/-- Characters matched by Python's `\w` (ASCII fragment). -/
def isWordChar (c : Char) : Bool :=
  (('a' ≤ c && c ≤ 'z') || ('A' ≤ c && c ≤ 'Z') ||
   ('0' ≤ c && c ≤ '9') || c == '_')

/-- Characters matched by the class `[\w.-]` used by both local-url
patterns (`src/server.py:58`, `src/client/SuperPublifyer.py:20`). -/
def isHostChar (c : Char) : Bool :=
  isWordChar c || c == '.' || c == '-'

/-- Characters matched by Python's `\d` (ASCII fragment). -/
def isDigitChar (c : Char) : Bool :=
  '0' ≤ c && c ≤ '9'

/-! ## Anchored matching, with Python dollar semantics

All four patterns in the source have the form `^...$`.  In Python,
`$` also matches just before a single trailing newline, so a matcher for
`^P$` accepts `s` when the core language accepts `s` itself or accepts
`s` with one trailing newline removed. -/

/-- Python semantics of `re.match` for a pattern of the form `^P$`,
given a decision procedure `core` for the core language `P`. -/
def pyDollar (core : List Char → Bool) (s : List Char) : Bool :=
  core s || (s.getLast? == some '\n' && core s.dropLast)

/-- Core language of `[a-zA-Z0-9_-]{3,50}` (both server credential and
project patterns and the client project pattern have this core). -/
def nameCore (s : List Char) : Bool :=
  s.all isNameChar && decide (3 ≤ s.length) && decide (s.length ≤ 50)

/-- Longest colon-free prefix: the part matched by `[\w.-]+` in both
local-url patterns (the class cannot match a colon). -/
def hostPart (s : List Char) : List Char :=
  s.takeWhile (fun c => c != ':')

/-- What remains of the input after `hostPart`. -/
def restPart (s : List Char) : List Char :=
  s.dropWhile (fun c => c != ':')

/-- Strips one leading colon, the separator of the `:\d+` group. -/
def portTail : List Char → Option (List Char)
  | c :: b => if c == ':' then some b else none
  | [] => none

/-- Checks the mandatory `:\d+` group of the client pattern: the part
after the colon must be a nonempty run of digits, and the colon must be
present. -/
def portCheckReq : Option (List Char) → Bool
  | some b => !b.isEmpty && b.all isDigitChar
  | none => false

/-- Checks the optional `(:\d+)?` group of the server pattern: either a
colon followed by a nonempty run of digits, or nothing at all. -/
def portCheckOpt (r : List Char) : Option (List Char) → Bool
  | some b => !b.isEmpty && b.all isDigitChar
  | none => r == []

/-- Core language of the client pattern `[\w.-]+:\d+` from
`LOCAL_URL_PATTERN` (`src/client/SuperPublifyer.py:20`): a nonempty run
of host characters, a colon, then a nonempty run of digits. -/
def clientLocalCore (s : List Char) : Bool :=
  !(hostPart s).isEmpty && (hostPart s).all isHostChar &&
    portCheckReq (portTail (restPart s))

/-- Core language of the server pattern `[\w.-]+(:\d+)?` from
`src/server.py:58`: like the client pattern but the colon-and-port
group is optional. -/
def serverLocalCore (s : List Char) : Bool :=
  !(hostPart s).isEmpty && (hostPart s).all isHostChar &&
    portCheckOpt (restPart s) (portTail (restPart s))

/-! ## Substring containment (Python `in` on strings) -/

/-- Decides whether `pat` is a prefix of `s`. -/
def startsWithList (pat s : List Char) : Bool :=
  match pat, s with
  | [], _ => true
  | _ :: _, [] => false
  | p :: ps, c :: cs => p == c && startsWithList ps cs

/-- Decides whether `pat` occurs as a contiguous substring of `s`,
modelling the Python expression `pat in s` on strings. -/
def containsSub (pat : List Char) : List Char → Bool
  | [] => startsWithList pat []
  | c :: cs => startsWithList pat (c :: cs) || containsSub pat cs

/-- Python `needle in hay` for strings. -/
def pyIn (needle hay : String) : Bool :=
  containsSub needle.data hay.data

/-! ## The four validation checks of the two sources -/

/-- Client check `validate_input(project, PROJECT_PATTERN)`
(`src/client/SuperPublifyer.py:22-23` with the pattern from line 19). -/
def client_project_ok (v : String) : Bool :=
  pyDollar nameCore v.data

/-- Server check `re.match(PROJECT_REGEX, data.project_name)`
(`src/server.py:50`, pattern from line 21; the credential pattern at
line 20 is the same). -/
def server_project_ok (v : String) : Bool :=
  pyDollar nameCore v.data

/-- Client check `validate_input(local_url, LOCAL_URL_PATTERN)`
(`src/client/SuperPublifyer.py:22-23` with the pattern from line 20). -/
def client_local_url_ok (v : String) : Bool :=
  pyDollar clientLocalCore v.data

/-- Server validation of the `local_url` field inside
`validate_registration` (`src/server.py:56-59`): no embedded scheme
separator, and the local-url regex must match. -/
def server_local_url_ok (v : String) : Bool :=
  !(pyIn "://" v) && pyDollar serverLocalCore v.data

/-! ## Helper lemmas about the local-url matchers -/

lemma portTail_eq_some {r b : List Char} (h : portTail r = some b) :
    r = ':' :: b := by
  match r with
  | [] => simp [portTail] at h
  | c :: cs =>
    rw [portTail] at h
    by_cases hc : (c == ':') = true
    · rw [if_pos hc] at h
      obtain rfl : cs = b := Option.some.inj h
      rw [beq_iff_eq.mp hc]
    · rw [if_neg hc] at h
      exact absurd h (by simp)

lemma clientLocalCore_imp_server {l : List Char}
    (h : clientLocalCore l = true) : serverLocalCore l = true := by
  rw [clientLocalCore] at h
  rw [serverLocalCore]
  cases hpt : portTail (restPart l) with
  | none => rw [hpt, portCheckReq] at h; simp at h
  | some b => rw [hpt, portCheckReq] at h; simp only [portCheckOpt]; exact h

lemma clientLocalCore_no_slash {l : List Char}
    (h : clientLocalCore l = true) : '/' ∉ l := by
  rw [clientLocalCore] at h
  cases hpt : portTail (restPart l) with
  | none => rw [hpt, portCheckReq] at h; simp at h
  | some b =>
    rw [hpt, portCheckReq] at h
    simp only [Bool.and_eq_true] at h
    obtain ⟨⟨-, hhost⟩, hb⟩ := h
    have hsplit : hostPart l ++ restPart l = l :=
      List.takeWhile_append_dropWhile (p := fun c => c != ':') (l := l)
    intro hmem
    rw [← hsplit] at hmem
    rcases List.mem_append.mp hmem with hm | hm
    · have := (List.all_eq_true.mp hhost) _ hm
      simp [isHostChar, isWordChar] at this
    · rw [portTail_eq_some hpt] at hm
      rcases List.mem_cons.mp hm with hm | hm
      · simp at hm
      · have := (List.all_eq_true.mp hb.2) _ hm
        simp [isDigitChar] at this

lemma containsSub_mem {pat l : List Char} {c : Char} (hc : c ∈ pat)
    (h : containsSub pat l = true) : c ∈ l := by
  induction l with
  | nil =>
    cases pat with
    | nil => simp at hc
    | cons p ps => simp [containsSub, startsWithList] at h
  | cons hd tl ih =>
    rw [containsSub, Bool.or_eq_true] at h
    rcases h with h | h
    · clear ih
      induction pat generalizing hd tl with
      | nil => simp at hc
      | cons p ps ihp =>
        rw [startsWithList, Bool.and_eq_true] at h
        rcases List.mem_cons.mp hc with hc' | hc'
        · have hchd : c = hd := hc'.trans (beq_iff_eq.mp h.1)
          rw [hchd]
          exact List.mem_cons_self _ _
        · cases tl with
          | nil =>
            cases ps with
            | nil => simp at hc'
            | cons q qs => simp [startsWithList] at h
          | cons hd' tl' =>
            exact List.mem_cons_of_mem _ (ihp hc' hd' tl' h.2)
    · exact List.mem_cons_of_mem _ (ih h)

lemma pyDollar_no_slash {core : List Char → Bool} {v : String}
    (hns : ∀ l, core l = true → '/' ∉ l)
    (h : pyDollar core v.data = true) : '/' ∉ v.data := by
  rw [pyDollar, Bool.or_eq_true] at h
  rcases h with h | h
  · exact hns _ h
  · rw [Bool.and_eq_true] at h
    obtain ⟨hlast, hcore⟩ := h
    have hne : v.data ≠ [] := by
      intro hnil
      rw [hnil] at hlast
      simp [List.getLast?] at hlast
    intro hmem
    rw [← List.dropLast_append_getLast hne] at hmem
    rcases List.mem_append.mp hmem with hm | hm
    · exact hns _ hcore hm
    · have hl : v.data.getLast hne = '\n' := by
        have := List.getLast?_eq_getLast v.data hne
        rw [this] at hlast
        simpa using hlast
      rcases List.mem_singleton.mp hm with hm'
      rw [hl] at hm'
      simp at hm'

lemma pyDollar_mono {c1 c2 : List Char → Bool}
    (himp : ∀ l, c1 l = true → c2 l = true) {s : List Char}
    (h : pyDollar c1 s = true) : pyDollar c2 s = true := by
  rw [pyDollar, Bool.or_eq_true] at h ⊢
  rcases h with h | h
  · exact Or.inl (himp _ h)
  · rw [Bool.and_eq_true] at h
    exact Or.inr (by rw [Bool.and_eq_true]; exact ⟨h.1, himp _ h.2⟩)

/-! ## Claim C6 -/

/-- Claim C6, counterexample: the string `localhost` is rejected by the
client's local-url pattern (`^[\w.-]+:\d+$` requires a port) but
accepted by the relay's validation of the same field
(`^[\w.-]+(:\d+)?$` makes the port optional), so the two validations do
not accept exactly the same inputs. -/
theorem c6_counterexample :
    client_local_url_ok "localhost" = false ∧
    server_local_url_ok "localhost" = true := by
  constructor <;> rfl

/-- Claim C6, amended: the client-side and relay-side project-name
checks accept exactly the same strings, and every local-target string
accepted by the client is also accepted by the relay; the converse
fails (see the counterexample), because the relay's local-url regex
makes the `:port` suffix optional while the client requires it. -/
theorem c6_validation_refinement :
    (∀ s : String, client_project_ok s = server_project_ok s) ∧
    (∀ s : String, client_local_url_ok s = true →
      server_local_url_ok s = true) := by
  constructor
  · intro s; rfl
  · intro s h
    rw [client_local_url_ok] at h
    rw [server_local_url_ok, Bool.and_eq_true]
    constructor
    · have hns : '/' ∉ s.data :=
        pyDollar_no_slash (fun l hl => clientLocalCore_no_slash hl) h
      rw [Bool.not_eq_true', ← Bool.not_eq_true]
      intro hin
      exact hns (containsSub_mem (by simp [String.data]) hin)
    · exact pyDollar_mono (fun l hl => clientLocalCore_imp_server hl) h

/-- Claim C6, witness for the amended theorem: the client accepts
`localhost:8000`, and the theorem then forces the relay to accept it
too. -/
theorem c6_validation_refinement_witness :
    server_local_url_ok "localhost:8000" = true :=
  c6_validation_refinement.2 "localhost:8000" rfl

/-! ## Python primitives used by the relay

The next definitions give structurally recursive models of the Python
primitives `str.lower`, `str.split(":")` and `int(...)` as used by the
server source.  They operate on character lists so that concrete
instances evaluate by definitional reduction. -/

/-- ASCII case folding of one character, the fragment of Python
`str.lower` relevant to the protocol strings handled by the source. -/
def pyLowerChar (c : Char) : Char :=
  if 'A' ≤ c && c ≤ 'Z' then Char.ofNat (c.toNat + 32) else c

/-- Python `s.lower()` (ASCII fragment). -/
def pyLower (s : String) : String :=
  ⟨s.data.map pyLowerChar⟩

/-- Python `s.split(sep)` for a one-character separator: splits at
every occurrence, keeping empty parts, and yields one part for a
separator-free input. -/
def splitOnChar (sep : Char) : List Char → List (List Char)
  | [] => [[]]
  | c :: cs =>
    if c == sep then [] :: splitOnChar sep cs
    else
      match splitOnChar sep cs with
      | h :: t => (c :: h) :: t
      | [] => [[c]]

/-- Python `int(s)` restricted to plain nonempty digit strings, the
only shape the port part of a validated `local_url` can have (the
general `int` also accepts signs and surrounding whitespace, which no
validated input contains). -/
def parsePort? (s : List Char) : Option Nat :=
  if !s.isEmpty && s.all isDigitChar then
    some (s.foldl (fun n c => n * 10 + (c.toNat - Char.toNat '0')) 0)
  else none

/-! ## Dictionary model

Python dictionaries (`routes`, `tcp_proxies` at `src/server.py:24-25`)
are modelled as association lists.  The source observes them only
through membership tests (`key in routes`), item lookup and item
assignment, so the model provides exactly first-match lookup and a set
operation; a set moves the entry to the end, which no lookup can
distinguish from in-place update. -/

/-- First-match lookup, Python `d[k]` / `k in d`. -/
def dictLookup {α : Type} : List (String × α) → String → Option α
  | [], _ => none
  | kv :: rest, k => if kv.1 == k then some kv.2 else dictLookup rest k

/-- Item assignment, Python `d[k] = v`. -/
def dictSet {α : Type} (l : List (String × α)) (k : String) (v : α) :
    List (String × α) :=
  l.filter (fun kv => kv.1 != k) ++ [(k, v)]

lemma dictLookup_dictSet_self {α : Type} (l : List (String × α))
    (k : String) (v : α) : dictLookup (dictSet l k v) k = some v := by
  induction l with
  | nil => simp [dictLookup, dictSet]
  | cons hd tl ih =>
    by_cases h : (hd.1 == k) = true
    · have hb : (hd.1 != k) = false := by simp [bne, h]
      simpa [dictSet, List.filter_cons, hb] using ih
    · have hb : (hd.1 != k) = true := by simp [bne]; simpa using h
      simpa [dictSet, List.filter_cons, hb, dictLookup, h] using ih

/-! ## The registration endpoint of the relay -/

/-- Server check `re.match(CREDENTIAL_REGEX, ...)` applied to the
username and password fields (`src/server.py:46-49`). -/
def server_credential_ok (v : String) : Bool :=
  pyDollar nameCore v.data

/-- Payload of `POST /register`, the `RegistrationRequest` pydantic
model of `src/server.py:27-32`. -/
structure RegistrationRequest where
  username : String
  password : String
  project_name : String
  local_url : String
  protocol : String
deriving DecidableEq

/-- Value stored in the `routes` dictionary for a registered key
(`src/server.py:75-79`). -/
structure RouteInfo where
  local_url : String
  protocol : String
  password : String
deriving DecidableEq

/-- The relay's global mutable state: the `routes` dictionary and the
`tcp_proxies` dictionary (for the latter only the assigned public port
is observable; the server handle is an opaque OS resource). -/
structure ServerState where
  routes : List (String × RouteInfo)
  tcpProxies : List (String × Nat)
deriving DecidableEq

/-- Result of a `/register` call: either the JSON body returned on
success, or an `HTTPException` with status code and detail. -/
inductive RegisterOutcome where
  | ok (body : List (String × String))
  | httpError (statusCode : Nat) (detail : String)
deriving DecidableEq

/-- HTTP status of a registration outcome (FastAPI returns 200 for a
plain dict result). -/
def RegisterOutcome.status : RegisterOutcome → Nat
  | .ok _ => 200
  | .httpError c _ => c

/-- JSON body of a registration outcome (error outcomes carry their
text in `detail`, not in a success body). -/
def RegisterOutcome.body : RegisterOutcome → List (String × String)
  | .ok b => b
  | .httpError _ _ => []

/-- The route key built from username and project name at
`src/server.py:66`. -/
def routeKeyOf (req : RegistrationRequest) : String :=
  req.username ++ "/" ++ req.project_name

/-- Translation of `validate_registration` (`src/server.py:44-59`);
`Except.error` carries the `ValueError` message. -/
def validate_registration (data : RegistrationRequest) : Except String Unit :=
  if !server_credential_ok data.username then
    .error "Invalid username format"
  else if !server_credential_ok data.password then
    .error "Invalid password format"
  else if !server_project_ok data.project_name then
    .error "Invalid project name format"
  else if !(["tcp", "http", "https"].contains (pyLower data.protocol)) then
    .error "Invalid protocol. Must be TCP, HTTP, or HTTPS"
  else if pyIn "://" data.local_url then
    .error "Local URL should not include protocol (e.g., use \x27localhost:8000\x27 instead of \x27http://localhost:8000\x27)"
  else if !(pyDollar serverLocalCore data.local_url.data) then
    .error "Invalid local URL format"
  else .ok ()

/-- Translation of `start_tcp_proxy` (`src/server.py:94-139`).  The
Python statement `host, port = target_url.split(":")` raises
`ValueError` unless the split yields exactly two parts, and
`int(port)` raises on a non-numeric part; both raises are caught and
re-raised as an HTTP 400 (`src/server.py:96-103`).  Binding the
listening socket on port 0 makes the OS pick an ephemeral port,
modelled by the `osPort` oracle argument; the chosen port is recorded
in `tcp_proxies` (`src/server.py:126-137`). -/
def start_tcp_proxy (st : ServerState) (route_key target_url : String)
    (osPort : Nat) : Except (Nat × String) ServerState :=
  match splitOnChar ':' target_url.data with
  | [_host, portStr] =>
    match parsePort? portStr with
    | some _ => .ok { st with tcpProxies := dictSet st.tcpProxies route_key osPort }
    | none => .error (400, "Invalid TCP target format. Use \x27host:port\x27")
  | _ => .error (400, "Invalid TCP target format. Use \x27host:port\x27")

/-- Translation of the `register` endpoint (`src/server.py:61-92`).
A `ValueError` from validation becomes a 400 (`src/server.py:88-92`);
the duplicate-key check happens before the route is stored
(`src/server.py:68-79`); the `HTTPException` raised inside
`start_tcp_proxy` is not a `ValueError`, so it propagates with the
route already stored. -/
def register (st : ServerState) (req : RegistrationRequest) (osPort : Nat) :
    ServerState × RegisterOutcome :=
  match validate_registration req with
  | .error e => (st, .httpError 400 e)
  | .ok _ =>
    let key := routeKeyOf req
    if (dictLookup st.routes key).isSome then
      (st, .httpError 409 "Project already registered")
    else
      let newRoute : RouteInfo :=
        ⟨req.local_url, pyLower req.protocol, req.password⟩
      let st1 : ServerState := { st with routes := dictSet st.routes key newRoute }
      if pyLower req.protocol == "tcp" then
        match start_tcp_proxy st1 key req.local_url osPort with
        | .ok st2 => (st2, .ok [("status", "success"), ("message", "Registration successful")])
        | .error ed => (st1, .httpError ed.1 ed.2)
      else
        (st1, .ok [("status", "success"), ("message", "Registration successful")])

/-! ## Claim C2 -/

/-- Claim C2, counterexample: a `POST /register` whose route key
`alice/app` is already present but whose payload fails validation
(protocol `ftp`) is answered with 400, not 409, because
`validate_registration` runs before the duplicate check.  The stored
entry is untouched in this case too. -/
theorem c2_counterexample :
    (register ⟨[("alice/app", ⟨"localhost:8000", "http", "secret-1"⟩)], []⟩
        ⟨"alice", "secret-1", "app", "localhost:8000", "ftp"⟩ 0).2 =
      .httpError 400 "Invalid protocol. Must be TCP, HTTP, or HTTPS" ∧
    (register ⟨[("alice/app", ⟨"localhost:8000", "http", "secret-1"⟩)], []⟩
        ⟨"alice", "secret-1", "app", "localhost:8000", "ftp"⟩ 0).2.status ≠ 409 ∧
    dictLookup ([("alice/app", (⟨"localhost:8000", "http", "secret-1"⟩ : RouteInfo))])
        (routeKeyOf ⟨"alice", "secret-1", "app", "localhost:8000", "ftp"⟩) =
      some ⟨"localhost:8000", "http", "secret-1"⟩ ∧
    (register ⟨[("alice/app", ⟨"localhost:8000", "http", "secret-1"⟩)], []⟩
        ⟨"alice", "secret-1", "app", "localhost:8000", "ftp"⟩ 0).1 =
      ⟨[("alice/app", ⟨"localhost:8000", "http", "secret-1"⟩)], []⟩ := by
  refine ⟨rfl, by decide, rfl, rfl⟩

/-- Claim C2, amended: for every `POST /register` whose payload passes
`validate_registration` and whose username/project_name route key is
already present in the registry, the server responds 409 Conflict and
the whole registry state — in particular the entry stored for that
key — is left exactly as it was. -/
theorem c2_duplicate_conflict (st : ServerState) (req : RegistrationRequest)
    (osPort : Nat) (r : RouteInfo)
    (hval : validate_registration req = .ok ())
    (hdup : dictLookup st.routes (routeKeyOf req) = some r) :
    register st req osPort = (st, .httpError 409 "Project already registered") ∧
    dictLookup (register st req osPort).1.routes (routeKeyOf req) = some r := by
  have h1 : register st req osPort = (st, .httpError 409 "Project already registered") := by
    simp [register, hval, hdup]
  exact ⟨h1, by rw [h1]; exact hdup⟩

/-- Claim C2, witness: registering `alice/app` a second time with a
valid payload yields 409 and leaves the registry untouched. -/
theorem c2_duplicate_conflict_witness :
    register ⟨[("alice/app", ⟨"localhost:8000", "http", "secret-1"⟩)], []⟩
        ⟨"alice", "other-pw", "app", "localhost:9000", "https"⟩ 0 =
      (⟨[("alice/app", ⟨"localhost:8000", "http", "secret-1"⟩)], []⟩,
        .httpError 409 "Project already registered") :=
  (c2_duplicate_conflict
    ⟨[("alice/app", ⟨"localhost:8000", "http", "secret-1"⟩)], []⟩
    ⟨"alice", "other-pw", "app", "localhost:9000", "https"⟩ 0
    ⟨"localhost:8000", "http", "secret-1"⟩ rfl rfl).1

/-! ## Claim C5 -/

/-- Claim C5, counterexample: a successful `POST /register` with
protocol `tcp` returns only `status` and `message` in its body; there
is no `tcp_port` key, even though the dynamically assigned public port
(here 41000) was recorded in `tcp_proxies`. -/
theorem c5_counterexample :
    (register ⟨[], []⟩ ⟨"alice", "secret-1", "app", "localhost:9000", "tcp"⟩ 41000).2 =
      .ok [("status", "success"), ("message", "Registration successful")] ∧
    dictLookup (register ⟨[], []⟩
        ⟨"alice", "secret-1", "app", "localhost:9000", "tcp"⟩ 41000).2.body "tcp_port" = none ∧
    dictLookup (register ⟨[], []⟩
        ⟨"alice", "secret-1", "app", "localhost:9000", "tcp"⟩ 41000).1.tcpProxies
        (routeKeyOf ⟨"alice", "secret-1", "app", "localhost:9000", "tcp"⟩) = some 41000 := by
  refine ⟨rfl, rfl, rfl⟩

/-- Claim C5, amended: for every successful `POST /register` with
protocol `tcp`, the response body is exactly
`status: success, message: Registration successful` — it contains no
`tcp_port` key; the dynamically assigned public TCP listener port is
recorded only in the server-side `tcp_proxies` map and is never
returned to the caller. -/
theorem c5_tcp_port_not_returned (st : ServerState) (req : RegistrationRequest)
    (osPort : Nat) (host portStr : List Char) (n : Nat)
    (hval : validate_registration req = .ok ())
    (htcp : pyLower req.protocol = "tcp")
    (hfresh : dictLookup st.routes (routeKeyOf req) = none)
    (hsplit : splitOnChar ':' req.local_url.data = [host, portStr])
    (hport : parsePort? portStr = some n) :
    (register st req osPort).2 =
      .ok [("status", "success"), ("message", "Registration successful")] ∧
    dictLookup (register st req osPort).2.body "tcp_port" = none ∧
    dictLookup (register st req osPort).1.tcpProxies (routeKeyOf req) = some osPort := by
  have hstep : register st req osPort =
      ({ routes := dictSet st.routes (routeKeyOf req)
            ⟨req.local_url, pyLower req.protocol, req.password⟩,
         tcpProxies := dictSet st.tcpProxies (routeKeyOf req) osPort },
       .ok [("status", "success"), ("message", "Registration successful")]) := by
    simp [register, hval, hfresh, htcp, start_tcp_proxy, hsplit, hport]
  rw [hstep]
  exact ⟨rfl, rfl, dictLookup_dictSet_self _ _ _⟩

/-- Claim C5, witness: a concrete successful tcp registration, with
the assigned port 41001 recorded server-side only. -/
theorem c5_tcp_port_not_returned_witness :
    (register ⟨[], []⟩ ⟨"bob", "hunter-22", "game", "127.0.0.1:6000", "tcp"⟩ 41001).2 =
      .ok [("status", "success"), ("message", "Registration successful")] ∧
    dictLookup (register ⟨[], []⟩
        ⟨"bob", "hunter-22", "game", "127.0.0.1:6000", "tcp"⟩ 41001).2.body "tcp_port" = none :=
  ⟨(c5_tcp_port_not_returned ⟨[], []⟩
      ⟨"bob", "hunter-22", "game", "127.0.0.1:6000", "tcp"⟩ 41001
      "127.0.0.1".data "6000".data 6000 rfl rfl rfl rfl rfl).1,
   (c5_tcp_port_not_returned ⟨[], []⟩
      ⟨"bob", "hunter-22", "game", "127.0.0.1:6000", "tcp"⟩ 41001
      "127.0.0.1".data "6000".data 6000 rfl rfl rfl rfl rfl).2.1⟩

/-! ## Claim C10 -/

/-- Claim C10: when `POST /register` is called with protocol `tcp` and
a `local_url` that passes validation but has no colon, the route is
first stored in `routes`, then `start_tcp_proxy` fails to unpack
`host, port` from the split, and the resulting 400 `HTTPException`
propagates past the `except ValueError` handler without the route
being removed — so a later registration attempt under the same key
gets 409 instead of succeeding. -/
theorem c10_tcp_portless_leaks_route (st : ServerState)
    (req : RegistrationRequest) (osPort : Nat)
    (hval : validate_registration req = .ok ())
    (htcp : pyLower req.protocol = "tcp")
    (hfresh : dictLookup st.routes (routeKeyOf req) = none)
    (hsplit : splitOnChar ':' req.local_url.data = [req.local_url.data]) :
    (register st req osPort).2 =
      .httpError 400 "Invalid TCP target format. Use \x27host:port\x27" ∧
    dictLookup (register st req osPort).1.routes (routeKeyOf req) =
      some ⟨req.local_url, "tcp", req.password⟩ ∧
    ∀ (req2 : RegistrationRequest) (osPort2 : Nat),
      validate_registration req2 = .ok () →
      routeKeyOf req2 = routeKeyOf req →
      (register (register st req osPort).1 req2 osPort2).2 =
        .httpError 409 "Project already registered" := by
  have hstep : register st req osPort =
      ({ routes := dictSet st.routes (routeKeyOf req)
            ⟨req.local_url, "tcp", req.password⟩,
         tcpProxies := st.tcpProxies },
       .httpError 400 "Invalid TCP target format. Use \x27host:port\x27") := by
    simp [register, hval, hfresh, htcp, start_tcp_proxy, hsplit]
  refine ⟨by rw [hstep], ?_, ?_⟩
  · rw [hstep]
    exact dictLookup_dictSet_self _ _ _
  · intro req2 osPort2 hval2 hkey
    rw [hstep]
    have hdup2 : dictLookup
        (dictSet st.routes (routeKeyOf req) ⟨req.local_url, "tcp", req.password⟩)
        (routeKeyOf req2) = some ⟨req.local_url, "tcp", req.password⟩ := by
      rw [hkey]
      exact dictLookup_dictSet_self _ _ _
    simp [register, hval2, hdup2]

/-- Claim C10, witness: registering `alice/app` over tcp with the
portless target `localhost` yields 400, and a second, fully valid
registration of `alice/app` then yields 409. -/
theorem c10_witness :
    (register ⟨[], []⟩ ⟨"alice", "secret-1", "app", "localhost", "tcp"⟩ 0).2 =
      .httpError 400 "Invalid TCP target format. Use \x27host:port\x27" ∧
    (register ((register ⟨[], []⟩ ⟨"alice", "secret-1", "app", "localhost", "tcp"⟩ 0).1)
        ⟨"alice", "secret-1", "app", "localhost:9000", "tcp"⟩ 1).2 =
      .httpError 409 "Project already registered" := by
  have h := c10_tcp_portless_leaks_route ⟨[], []⟩
    ⟨"alice", "secret-1", "app", "localhost", "tcp"⟩ 0 rfl rfl rfl rfl
  exact ⟨h.1, h.2.2 ⟨"alice", "secret-1", "app", "localhost:9000", "tcp"⟩ 1 rfl rfl⟩

/-! ## The catch-all proxy handler of the relay -/

/-- The inbound public HTTP request as seen by `proxy_request`
(`src/server.py:156-157`): method, headers, raw body and raw query
string (`request.query_params` renders to the raw query string, empty
when there is none). -/
structure InboundHttp where
  method : String
  headers : List (String × String)
  body : String
  query : String
deriving DecidableEq

/-- The outbound httpx call assembled by `proxy_request`
(`src/server.py:193-199`): method, target url, forwarded headers, raw
body and the literal `timeout=30.0`, in whole seconds. -/
structure ServerCall where
  method : String
  url : String
  headers : List (String × String)
  body : String
  timeoutSecs : Nat
deriving DecidableEq

/-- What the backend request inside the `async with` block does:
either a response, or one of the httpx exception classes the handler
distinguishes.  In httpx, every timeout class (`ReadTimeout`,
`ConnectTimeout`, ...) derives from `TimeoutException`, which is not a
subclass of `ConnectError`; so a timeout is caught by the generic
`except Exception` clause at `src/server.py:212`, not by the
`except httpx.ConnectError` clause at `src/server.py:207`. -/
inductive BackendOutcome where
  | ok (statusCode : Nat) (headers : List (String × String)) (body : String)
  | connectError
  | timeoutExpired
  | otherError (msg : String)
deriving DecidableEq

/-- Result of `proxy_request`: a plain/streaming `Response` or an
`HTTPException`. -/
structure HttpResult where
  statusCode : Nat
  headers : List (String × String)
  body : String
deriving DecidableEq

/-- Distinguishes the `Response`/`StreamingResponse` constructors from
a raised `HTTPException` (FastAPI turns the latter into a JSON body
carrying `detail`). -/
inductive ProxyResult where
  | response (r : HttpResult)
  | httpError (statusCode : Nat) (detail : String)
deriving DecidableEq

/-- HTTP status the public caller observes. -/
def ProxyResult.status : ProxyResult → Nat
  | .response r => r.statusCode
  | .httpError c _ => c

/-- Hop-by-hop request-header stripping of `src/server.py:185-190`:
drop `host`, `connection` and `content-length` (case-insensitively)
before forwarding. -/
def stripHopHeaders (hs : List (String × String)) : List (String × String) :=
  hs.filter (fun kv =>
    !(["host", "connection", "content-length"].contains (pyLower kv.1)))

/-- The target url built at `src/server.py:176-179`: always the
literal `http://` scheme in front of the stored `local_url`, then the
path, then the raw query string when present — the stored protocol is
never consulted here. -/
def targetUrl (route : RouteInfo) (path query : String) : String :=
  if query.isEmpty then "http://" ++ route.local_url ++ "/" ++ path
  else "http://" ++ route.local_url ++ "/" ++ path ++ "?" ++ query

/-- The complete outbound call of `src/server.py:193-199`. -/
def serverCall (route : RouteInfo) (path : String) (req : InboundHttp) :
    ServerCall :=
  ⟨req.method, targetUrl route path req.query, stripHopHeaders req.headers,
    req.body, 30⟩

/-- Rendering of the backend outcome by the handler's tail
(`src/server.py:201-217`): a response is streamed back with the
backend's own status code, headers and body unchanged;
`httpx.ConnectError` becomes 503; every other exception — timeouts
included — becomes 500. -/
def outcomeToResult : BackendOutcome → ProxyResult
  | .ok s hs b => .response ⟨s, hs, b⟩
  | .connectError => .httpError 503 "Backend service unavailable"
  | .timeoutExpired => .httpError 500 "Internal proxy error"
  | .otherError _ => .httpError 500 "Internal proxy error"

/-- Translation of the catch-all handler `proxy_request`
(`src/server.py:156-217`).  The `backend` oracle stands for the httpx
round trip to the local service. -/
def proxy_request (routes : List (String × RouteInfo))
    (username project_name path : String) (req : InboundHttp)
    (backend : ServerCall → BackendOutcome) : ProxyResult :=
  let route_key := username ++ "/" ++ project_name
  match dictLookup routes route_key with
  | none => .httpError 404 "Project not found"
  | some route =>
    if route.protocol == "tcp" then
      .response ⟨400, [], "TCP route cannot be accessed via HTTP"⟩
    else
      outcomeToResult (backend (serverCall route path req))

/-! ## Claim C3 -/

/-- Claim C3, counterexample: an HTML response (content-type
`text/html`) whose body holds the root-relative link
`href="/assets/a.css"` is proxied for route `u/myapp` completely
unchanged — the link is not rewritten to `/myapp/assets/a.css`,
and the `content-length` header is not removed. -/
theorem c3_counterexample :
    proxy_request [("u/myapp", ⟨"localhost:3000", "http", "pw-123"⟩)]
        "u" "myapp" "index.html" ⟨"GET", [], "", ""⟩
        (fun _ => .ok 200 [("content-type", "text/html"), ("content-length", "29")]
          "<a href=\"/assets/a.css\">x</a>") =
      .response ⟨200, [("content-type", "text/html"), ("content-length", "29")],
        "<a href=\"/assets/a.css\">x</a>"⟩ ∧
    dictLookup [("content-type", "text/html"), ("content-length", "29")]
        "content-length" = some "29" ∧
    "<a href=\"/assets/a.css\">x</a>" ≠ "<a href=\"/myapp/assets/a.css\">x</a>" := by
  refine ⟨rfl, rfl, by decide⟩

/-- Claim C3, amended: `proxy_request` performs no HTML rewriting at
all — whatever the response's content-type, the backend's status code,
headers (content-length included) and body are returned to the public
caller verbatim; only the hop-by-hop request headers (`host`,
`connection`, `content-length`) are stripped from the forwarded
request. -/
theorem c3_no_rewrite (routes : List (String × RouteInfo))
    (u p path : String) (req : InboundHttp)
    (backend : ServerCall → BackendOutcome) (route : RouteInfo)
    (s : Nat) (hs : List (String × String)) (b : String)
    (h1 : dictLookup routes (u ++ "/" ++ p) = some route)
    (h2 : route.protocol ≠ "tcp")
    (h3 : backend (serverCall route path req) = .ok s hs b) :
    proxy_request routes u p path req backend = .response ⟨s, hs, b⟩ ∧
    (serverCall route path req).headers = stripHopHeaders req.headers := by
  constructor
  · simp [proxy_request, h1, h2, h3, outcomeToResult]
  · rfl

/-- Claim C3, witness: concrete pass-through of an HTML response with
its content-length header for an http route. -/
theorem c3_no_rewrite_witness :
    proxy_request [("bob/site", ⟨"localhost:8080", "http", "pw-456"⟩)]
        "bob" "site" "page" ⟨"GET", [("accept", "text/html")], "", ""⟩
        (fun _ => .ok 200 [("content-type", "text/html"), ("content-length", "11")]
          "<p>hi</p>") =
      .response ⟨200, [("content-type", "text/html"), ("content-length", "11")],
        "<p>hi</p>"⟩ :=
  (c3_no_rewrite [("bob/site", ⟨"localhost:8080", "http", "pw-456"⟩)]
    "bob" "site" "page" ⟨"GET", [("accept", "text/html")], "", ""⟩
    (fun _ => .ok 200 [("content-type", "text/html"), ("content-length", "11")]
      "<p>hi</p>")
    ⟨"localhost:8080", "http", "pw-456"⟩ 200
    [("content-type", "text/html"), ("content-length", "11")] "<p>hi</p>"
    rfl (by decide) rfl).1

/-! ## Claim C4 -/

/-- Claim C4, counterexample: when the backend round trip times out,
the public caller receives 500 `Internal proxy error`, not 504 — the
httpx timeout exceptions are not `ConnectError` subclasses, so they
fall into the generic `except Exception` clause. -/
theorem c4_counterexample :
    proxy_request [("u/myapp", ⟨"localhost:3000", "http", "pw-123"⟩)]
        "u" "myapp" "slow" ⟨"GET", [], "", ""⟩ (fun _ => .timeoutExpired) =
      .httpError 500 "Internal proxy error" ∧
    (proxy_request [("u/myapp", ⟨"localhost:3000", "http", "pw-123"⟩)]
        "u" "myapp" "slow" ⟨"GET", [], "", ""⟩ (fun _ => .timeoutExpired)).status ≠ 504 := by
  refine ⟨rfl, by decide⟩

/-- Claim C4, amended: for every proxied request on a registered
http/https route, the outbound call carries the fixed 30-second
deadline, and when it expires without a response the public caller
receives HTTP 500 (`Internal proxy error`), not 504. -/
theorem c4_timeout_500 (routes : List (String × RouteInfo))
    (u p path : String) (req : InboundHttp)
    (backend : ServerCall → BackendOutcome) (route : RouteInfo)
    (h1 : dictLookup routes (u ++ "/" ++ p) = some route)
    (h2 : route.protocol ≠ "tcp")
    (h3 : backend (serverCall route path req) = .timeoutExpired) :
    proxy_request routes u p path req backend =
      .httpError 500 "Internal proxy error" ∧
    (serverCall route path req).timeoutSecs = 30 := by
  constructor
  · simp [proxy_request, h1, h2, h3, outcomeToResult]
  · rfl

/-- Claim C4, witness: a concrete timed-out forward on an https route
yields the 500 outcome. -/
theorem c4_timeout_500_witness :
    proxy_request [("eve/shop", ⟨"localhost:5000", "https", "pw-789"⟩)]
        "eve" "shop" "checkout" ⟨"POST", [], "cart=1", ""⟩
        (fun _ => .timeoutExpired) = .httpError 500 "Internal proxy error" :=
  (c4_timeout_500 [("eve/shop", ⟨"localhost:5000", "https", "pw-789"⟩)]
    "eve" "shop" "checkout" ⟨"POST", [], "cart=1", ""⟩
    (fun _ => .timeoutExpired) ⟨"localhost:5000", "https", "pw-789"⟩
    rfl (by decide) rfl).1

/-! ## The client's executor loop

The client receives websocket text frames, parses them with
`json.loads`, forwards the request to the local service and sends back
a JSON response frame (`src/client/SuperPublifyer.py:283-312`).  JSON
values are modelled by `JVal`; a websocket message is modelled at the
`json.loads` boundary as `Except String (List (String × JVal))`, where
`Except.error` stands for a message that fails to parse into an
object (the exception text becomes the error string). -/

/-- JSON values as produced by `json.loads` (objects are association
lists; only the shapes the protocol uses are relevant). -/
inductive JVal where
  | jnull
  | jstr (s : String)
  | jnum (n : Int)
  | jobj (kvs : List (String × JVal))

/-- Python `request.get(k)` on a parsed JSON object: the value if the
key is present, `none` otherwise. -/
def jget (kvs : List (String × JVal)) (k : String) : Option JVal :=
  match kvs with
  | [] => none
  | kv :: rest => if kv.1 == k then some kv.2 else jget rest k

/-- Decoded request frame, the fields the executor loop reads at
`src/client/SuperPublifyer.py:289-294`. -/
structure RequestMsg where
  method : String
  path : String
  headers : List (String × String)
  body : Option String
  query : Option String

/-- Converts a JSON object of string values into a header list. -/
def strPairs : List (String × JVal) → Option (List (String × String))
  | [] => some []
  | (k, .jstr v) :: rest => (strPairs rest).map (fun r => (k, v) :: r)
  | _ => none

/-- Field read `request.get("method")`
(`src/client/SuperPublifyer.py:290`): a missing or non-string method
makes the later httpx call raise, which lands in the same
`except Exception` branch as a parse failure. -/
def reqMethod (kvs : List (String × JVal)) : Except String String :=
  match jget kvs "method" with
  | some (.jstr m) => .ok m
  | _ => .error "invalid method"

/-- Field read `request.get("path", "")`
(`src/client/SuperPublifyer.py:291`). -/
def reqPath (kvs : List (String × JVal)) : Except String String :=
  match jget kvs "path" with
  | none => .ok ""
  | some (.jstr p) => .ok p
  | some _ => .error "invalid path"

/-- Field read `request.get("headers", ...)` with an empty-dict
default (`src/client/SuperPublifyer.py:292`). -/
def reqHeaders (kvs : List (String × JVal)) :
    Except String (List (String × String)) :=
  match jget kvs "headers" with
  | none => .ok []
  | some (.jobj hs) =>
    match strPairs hs with
    | some l => .ok l
    | none => .error "invalid headers"
  | some _ => .error "invalid headers"

/-- Field reads `request.get("body")` and `request.get("query")`
(`src/client/SuperPublifyer.py:293-294`): a JSON `null` loads as
Python `None`, like an absent key. -/
def reqOptStr (kvs : List (String × JVal)) (k : String) :
    Except String (Option String) :=
  match jget kvs k with
  | none => .ok none
  | some .jnull => .ok none
  | some (.jstr s) => .ok (some s)
  | some _ => .error ("invalid " ++ k)

/-- Decodes one parsed frame into the fields the executor uses; any
failure is an exception inside the `try` block and so follows the
502 path.  The decoded fields are exactly `method`, `path`, `headers`,
`body` and `query` — no correlation-id field exists in the protocol. -/
def decodeRequest (kvs : List (String × JVal)) : Except String RequestMsg := do
  let m ← reqMethod kvs
  let p ← reqPath kvs
  let hs ← reqHeaders kvs
  let b ← reqOptStr kvs "body"
  let q ← reqOptStr kvs "query"
  pure ⟨m, p, hs, b, q⟩

/-- Python `path.lstrip("/")` restricted to its use at
`src/client/SuperPublifyer.py:295`: strips all leading slashes. -/
def lstripSlash (p : String) : String :=
  ⟨p.data.dropWhile (fun c => c == '/')⟩

/-- The forward url of `src/client/SuperPublifyer.py:295-297`: always
the literal `http://` scheme — the protocol chosen by the scheme probe
is not consulted — then the local target, the slash-stripped path and
the query string when truthy. -/
def forwardUrl (local_url path : String) (query : Option String) : String :=
  match query with
  | some q =>
    if q.isEmpty then "http://" ++ local_url ++ "/" ++ lstripSlash path
    else "http://" ++ local_url ++ "/" ++ lstripSlash path ++ "?" ++ q
  | none => "http://" ++ local_url ++ "/" ++ lstripSlash path

/-- Python `body.encode() if body else None`: an absent or empty body
sends no content. -/
def bodyContent : Option String → Option String
  | some s => if s.isEmpty then none else some s
  | none => none

/-- The outbound httpx call of `src/client/SuperPublifyer.py:298-305`,
with its literal `timeout=60.0` in whole seconds. -/
structure ForwardCall where
  method : String
  url : String
  headers : List (String × String)
  content : Option String
  timeoutSecs : Nat

/-- Assembles the outbound call from a decoded frame. -/
def buildForwardCall (local_url : String) (r : RequestMsg) : ForwardCall :=
  ⟨r.method, forwardUrl local_url r.path r.query, r.headers,
    bodyContent r.body, 60⟩

/-- Response of the local service as observed through httpx
(`status_code`, `headers`, `text`). -/
structure LocalResp where
  status_code : Nat
  headers : List (String × String)
  text : String

/-- The `response_data` dictionary built at
`src/client/SuperPublifyer.py:306-308`. -/
structure ResponseData where
  status_code : Nat
  headers : List (String × String)
  body : String

/-- JSON encoding of `response_data` as sent by
`self.ws.send(json.dumps(response_data))`
(`src/client/SuperPublifyer.py:310`): the keys are exactly
`status_code`, `headers` and `body` — no correlation id is ever
attached to a response frame. -/
def encodeResponse (r : ResponseData) : List (String × JVal) :=
  [("status_code", .jnum r.status_code),
   ("headers", .jobj (r.headers.map (fun kv => (kv.1, JVal.jstr kv.2)))),
   ("body", .jstr r.body)]

/-- One iteration body of the executor loop
(`src/client/SuperPublifyer.py:288-308`): parse the frame, forward it
to the local service with the `call` oracle, and build the response
frame; any exception — parse failure, decode failure or a failed
forward — yields a synthesized 502 frame whose body is
`Error forwarding request: ` followed by the exception text. -/
def executorStep (local_url : String)
    (call : ForwardCall → Except String LocalResp)
    (msg : Except String (List (String × JVal))) : List (String × JVal) :=
  encodeResponse <|
    match msg with
    | .error e => ⟨502, [], "Error forwarding request: " ++ e⟩
    | .ok kvs =>
      match decodeRequest kvs with
      | .error e => ⟨502, [], "Error forwarding request: " ++ e⟩
      | .ok r =>
        match call (buildForwardCall local_url r) with
        | .ok resp => ⟨resp.status_code, resp.headers, resp.text⟩
        | .error e => ⟨502, [], "Error forwarding request: " ++ e⟩

/-- The executor loop (`src/client/SuperPublifyer.py:283-312`): take
the next queued message, handle it, send the response frame; the loop
only terminates when sending on the websocket raises (modelled by the
`send` oracle returning false), never because a forward failed. -/
def executorLoop (local_url : String)
    (call : ForwardCall → Except String LocalResp)
    (send : List (String × JVal) → Bool) :
    List (Except String (List (String × JVal))) → List (List (String × JVal))
  | [] => []
  | m :: rest =>
    let r := executorStep local_url call m
    if send r then r :: executorLoop local_url call send rest else []

lemma executorLoop_all_sends (local_url : String)
    (call : ForwardCall → Except String LocalResp)
    (msgs : List (Except String (List (String × JVal)))) :
    executorLoop local_url call (fun _ => true) msgs =
      msgs.map (executorStep local_url call) := by
  induction msgs with
  | nil => rfl
  | cons m rest ih => simp [executorLoop, ih]

/-! ## Claim C1 -/

/-- Claim C1, counterexample: the tunnel protocol carries no
correlation ids, so a response cannot be "the one matching that
caller's correlation id".  Two request frames that differ only in an
`id` field (ids 1 and 2) produce literally identical response frames,
and the response frame has no `id` key at all — no relay-side
delivery rule can tell the two callers' responses apart by
correlation id. -/
theorem c1_counterexample :
    executorStep "localhost:3000" (fun _ => .ok ⟨200, [], "hello"⟩)
        (.ok [("id", .jnum 1), ("method", .jstr "GET"), ("path", .jstr "/a")]) =
      executorStep "localhost:3000" (fun _ => .ok ⟨200, [], "hello"⟩)
        (.ok [("id", .jnum 2), ("method", .jstr "GET"), ("path", .jstr "/a")]) ∧
    jget (executorStep "localhost:3000" (fun _ => .ok ⟨200, [], "hello"⟩)
        (.ok [("id", .jnum 1), ("method", .jstr "GET"), ("path", .jstr "/a")]))
      "id" = none ∧
    jget [("id", .jnum 1), ("method", .jstr "GET"), ("path", .jstr "/a")] "id" =
      some (.jnum 1) ∧
    jget [("id", .jnum 2), ("method", .jstr "GET"), ("path", .jstr "/a")] "id" =
      some (.jnum 2) ∧
    JVal.jnum 1 ≠ JVal.jnum 2 := by
  refine ⟨rfl, rfl, rfl, rfl, ?_⟩
  intro h
  injection h with h'
  exact absurd h' (by decide)

/-- Claim C1, amended: the client's receiver and executor provide only
positional correspondence — frames are queued FIFO, handled strictly
serially, and the i-th response frame sent back is exactly the
handling of the i-th request frame received; there are no correlation
ids, so matching is by order, not by id. -/
theorem c1_fifo_order (local_url : String)
    (call : ForwardCall → Except String LocalResp)
    (msgs : List (Except String (List (String × JVal)))) (i : Nat) :
    (executorLoop local_url call (fun _ => true) msgs)[i]? =
      (msgs[i]?).map (executorStep local_url call) := by
  rw [executorLoop_all_sends, List.getElem?_map]

/-! ## Claim C8 -/

/-- Claim C8: in the executor loop, every received frame whose parsing
or forwarding fails yields a synthesized response frame with status
502 and body `Error forwarding request: ` plus the error text, and the
loop output still has one response per received frame — a failed
forward never terminates the loop (only a failed websocket send
does). -/
theorem c8_forward_failure_502 (local_url : String)
    (call : ForwardCall → Except String LocalResp)
    (msgs : List (Except String (List (String × JVal)))) :
    executorLoop local_url call (fun _ => true) msgs =
      msgs.map (executorStep local_url call) ∧
    (∀ e, executorStep local_url call (.error e) =
      encodeResponse ⟨502, [], "Error forwarding request: " ++ e⟩) ∧
    (∀ kvs r e, decodeRequest kvs = .ok r →
      call (buildForwardCall local_url r) = .error e →
      executorStep local_url call (.ok kvs) =
        encodeResponse ⟨502, [], "Error forwarding request: " ++ e⟩) := by
  refine ⟨executorLoop_all_sends _ _ _, fun e => rfl, ?_⟩
  intro kvs r e hdec hcall
  simp [executorStep, hdec, hcall]

/-- Claim C8, witness: a connection-refused forward of a concrete
frame produces the 502 response frame with the error text as body. -/
theorem c8_forward_failure_502_witness :
    executorStep "localhost:3000" (fun _ => .error "Connection refused")
        (.ok [("method", .jstr "GET")]) =
      encodeResponse ⟨502, [], "Error forwarding request: Connection refused"⟩ :=
  (c8_forward_failure_502 "localhost:3000"
      (fun _ => .error "Connection refused") []).2.2
    [("method", .jstr "GET")] ⟨"GET", "", [], none, none⟩
    "Connection refused" rfl rfl

/-! ## Claim C9 -/

/-- Claim C9: the relay builds the forwarded target url with the plain
`http://` scheme for every registered non-tcp route — the url does not
depend on the stored protocol at all — and the client's executor loop
likewise always forwards over `http://`, whatever the scheme probe
chose (the probe result is not an input of the url builder). -/
theorem c9_always_plain_http (routes : List (String × RouteInfo))
    (u p path : String) (req : InboundHttp)
    (backend : ServerCall → BackendOutcome) (route : RouteInfo)
    (local_url : String) (r : RequestMsg)
    (h1 : dictLookup routes (u ++ "/" ++ p) = some route)
    (h2 : route.protocol = "http" ∨ route.protocol = "https") :
    proxy_request routes u p path req backend =
      outcomeToResult (backend (serverCall route path req)) ∧
    (serverCall route path req).url =
      (if req.query.isEmpty then "http://" ++ route.local_url ++ "/" ++ path
       else "http://" ++ route.local_url ++ "/" ++ path ++ "?" ++ req.query) ∧
    (∀ proto2 : String,
      (serverCall ⟨route.local_url, proto2, route.password⟩ path req).url =
        (serverCall route path req).url) ∧
    (buildForwardCall local_url r).url =
      (match r.query with
       | some q =>
         if q.isEmpty then "http://" ++ local_url ++ "/" ++ lstripSlash r.path
         else "http://" ++ local_url ++ "/" ++ lstripSlash r.path ++ "?" ++ q
       | none => "http://" ++ local_url ++ "/" ++ lstripSlash r.path) := by
  refine ⟨?_, rfl, fun _ => rfl, rfl⟩
  have h2' : route.protocol ≠ "tcp" := by
    rcases h2 with h | h <;> rw [h] <;> decide
  simp [proxy_request, h1, h2']

/-- Claim C9, witness: an https route's forwarded url still starts
with the plain `http://` scheme. -/
theorem c9_always_plain_http_witness :
    (serverCall ⟨"localhost:3000", "https", "pw-123"⟩ "index.html"
        ⟨"GET", [], "", ""⟩).url = "http://localhost:3000/index.html" := by
  have h := c9_always_plain_http
    [("u/myapp", ⟨"localhost:3000", "https", "pw-123"⟩)]
    "u" "myapp" "index.html" ⟨"GET", [], "", ""⟩ (fun _ => .ok 200 [] "")
    ⟨"localhost:3000", "https", "pw-123"⟩ "localhost:9000"
    ⟨"GET", "/x", [], none, none⟩ rfl (Or.inr rfl)
  rw [h.2.1]
  rfl

/-! ## The client's connect-with-retry loop -/

/-- Backoff slept after a failed attempt, `asyncio.sleep(0.8 * attempt)`
(`src/client/SuperPublifyer.py:244`), in milliseconds. -/
def backoffMs (attempt : Nat) : Nat := 800 * attempt

/-- Observable outcome of the `for attempt in range(1, 6)` connect
loop of `src/client/SuperPublifyer.py:232-244`: how many attempts were
made, whether the loop broke out connected, whether the fatal
connection error was surfaced, and the successive backoff delays that
were slept. -/
structure RetryTrace where
  attemptsMade : Nat
  connected : Bool
  fatalError : Bool
  delays : List Nat
deriving DecidableEq

/-- The loop body over the remaining attempt numbers: a successful
`websockets.connect` breaks out of the loop; a failure on attempt 5
shows the `Failed to connect after 5 tries` error dialog and returns;
any other failure sleeps `0.8 * attempt` seconds and retries.  The
`fails` oracle tells which attempts raise. -/
def runAttempts (fails : Nat → Bool) : List Nat → RetryTrace
  | [] => ⟨0, false, false, []⟩
  | a :: rest =>
    if fails a = false then ⟨1, true, false, []⟩
    else if a = 5 then ⟨1, false, true, []⟩
    else
      let t := runAttempts fails rest
      ⟨t.attemptsMade + 1, t.connected, t.fatalError, backoffMs a :: t.delays⟩

/-- The whole `for attempt in range(1, 6)` loop. -/
def connectRetry (fails : Nat → Bool) : RetryTrace :=
  runAttempts fails [1, 2, 3, 4, 5]

lemma connectRetry_cases (fails : Nat → Bool) :
    connectRetry fails =
      if fails 1 = false then ⟨1, true, false, []⟩
      else if fails 2 = false then ⟨2, true, false, [800]⟩
      else if fails 3 = false then ⟨3, true, false, [800, 1600]⟩
      else if fails 4 = false then ⟨4, true, false, [800, 1600, 2400]⟩
      else if fails 5 = false then ⟨5, true, false, [800, 1600, 2400, 3200]⟩
      else ⟨5, false, true, [800, 1600, 2400, 3200]⟩ := by
  cases h1 : fails 1 <;> cases h2 : fails 2 <;> cases h3 : fails 3 <;>
    cases h4 : fails 4 <;> cases h5 : fails 5 <;>
      simp [connectRetry, runAttempts, backoffMs, h1, h2, h3, h4, h5]

/-- Claim C7: the connect loop makes at most 5 attempts; the backoff
delays slept between consecutive failed attempts are exactly
`800 * (i + 1)` milliseconds for the i-th wait, hence non-decreasing
and (at least) linear in the attempt number; after 5 consecutive
failures it surfaces the fatal connection error, never having made a
6th attempt; and if any of the 5 attempts succeeds the loop exits into
the connected state. -/
theorem c7_connect_retry (fails : Nat → Bool) :
    (connectRetry fails).attemptsMade ≤ 5 ∧
    (connectRetry fails).delays =
      (List.range (connectRetry fails).delays.length).map
        (fun i => 800 * (i + 1)) ∧
    List.Chain' (· ≤ ·) (connectRetry fails).delays ∧
    ((∀ k, 1 ≤ k → k ≤ 5 → fails k = true) →
      (connectRetry fails).fatalError = true ∧
      (connectRetry fails).connected = false ∧
      (connectRetry fails).attemptsMade = 5) ∧
    ((∃ k, 1 ≤ k ∧ k ≤ 5 ∧ fails k = false) →
      (connectRetry fails).connected = true) := by
  have hc := connectRetry_cases fails
  by_cases h1 : fails 1 = false
  · rw [if_pos h1] at hc
    rw [hc]
    refine ⟨by decide, by decide, by simp [List.chain'_cons], ?_, fun _ => rfl⟩
    intro hall
    exact absurd (hall 1 (by decide) (by decide)) (by simp [h1])
  · rw [if_neg h1] at hc
    by_cases h2 : fails 2 = false
    · rw [if_pos h2] at hc
      rw [hc]
      refine ⟨by decide, by decide, by simp [List.chain'_cons], ?_, fun _ => rfl⟩
      intro hall
      exact absurd (hall 2 (by decide) (by decide)) (by simp [h2])
    · rw [if_neg h2] at hc
      by_cases h3 : fails 3 = false
      · rw [if_pos h3] at hc
        rw [hc]
        refine ⟨by decide, by decide, by simp [List.chain'_cons], ?_, fun _ => rfl⟩
        intro hall
        exact absurd (hall 3 (by decide) (by decide)) (by simp [h3])
      · rw [if_neg h3] at hc
        by_cases h4 : fails 4 = false
        · rw [if_pos h4] at hc
          rw [hc]
          refine ⟨by decide, by decide, by simp [List.chain'_cons], ?_, fun _ => rfl⟩
          intro hall
          exact absurd (hall 4 (by decide) (by decide)) (by simp [h4])
        · rw [if_neg h4] at hc
          by_cases h5 : fails 5 = false
          · rw [if_pos h5] at hc
            rw [hc]
            refine ⟨by decide, by decide, by simp [List.chain'_cons], ?_, fun _ => rfl⟩
            intro hall
            exact absurd (hall 5 (by decide) (by decide)) (by simp [h5])
          · rw [if_neg h5] at hc
            rw [hc]
            refine ⟨by decide, by decide, by simp [List.chain'_cons], fun _ => ⟨rfl, rfl, rfl⟩, ?_⟩
            rintro ⟨k, hk1, hk5, hkf⟩
            interval_cases k <;> simp_all

/-- Claim C7, witness: with a transport that fails on attempts 1-4 and
succeeds on the 5th, the loop reaches the connected state after the
backoff sequence 800, 1600, 2400, 3200 ms; with a transport that
always fails, the fatal error is surfaced after exactly 5 attempts. -/
theorem c7_connect_retry_witness :
    (connectRetry (fun k => decide (k < 5))).connected = true ∧
    (connectRetry (fun _ => true)).fatalError = true ∧
    (connectRetry (fun _ => true)).attemptsMade = 5 := by
  refine ⟨(c7_connect_retry (fun k => decide (k < 5))).2.2.2.2
      ⟨5, by decide, by decide, by decide⟩, ?_, ?_⟩
  · exact ((c7_connect_retry (fun _ => true)).2.2.2.1 (fun k _ _ => rfl)).1
  · exact ((c7_connect_retry (fun _ => true)).2.2.2.1 (fun k _ _ => rfl)).2.2
